import Mathlib

/-!
Shallow embedding of the nimble-server-lib core (src/src/lib/server.c,
req_step.c, transport_connection.c and the participant_connection.h data
model). Machine integers are modelled as Nat with explicit reduction
modulo 2^32 or 2^64 where the C arithmetic wraps. Fallible C functions
returning negative error codes are modelled with Except Int or with an
Int paired with the updated state. Collaborator code that is not part of
this repository (nimble-steps, nimble-serialize, the ordered-datagram
layer, participant_connections.c, req_join_game.c) is modelled from the
specification and marked as such in the doc comments.
-/

/-- One step ring (NbsSteps from the nimble-steps collaborator): FIFO of
steps indexed by StepId, with the oldest stored id, the next id to
append, and the count of stored steps. Only these three header fields
are observed by the code under verification. -/
structure NbsSteps where
  expectedReadId : Nat
  expectedWriteId : Nat
  stepsCount : Nat
  deriving DecidableEq

/-- Modelled from the spec: `nbsStepsDiscardCount` lives in the
nimble-steps collaborator, not under src/. Per the spec, discardCount(n)
advances expectedReadId by n and fails if n exceeds stepsCount. StepId
arithmetic wraps at 2^32. The concrete error code of the collaborator is
not specified; only its sign matters and it is never reached below. -/
def nbsStepsDiscardCount (s : NbsSteps) (n : Nat) : Except Int NbsSteps :=
  if n > s.stepsCount then Except.error (-1)
  else Except.ok
    { s with
      expectedReadId := (s.expectedReadId + n) % 2 ^ 32
      stepsCount := s.stepsCount - n }

/-- Latest authoritative snapshot header (game.latestState); only its
stepId is observed by the code under verification. -/
structure NimbleServerGameState where
  stepId : Nat
  deriving DecidableEq

/-- The game aggregate (game.h data, as used by server.c and req_step.c). -/
structure NimbleServerGame where
  authoritativeSteps : NbsSteps
  latestState : NimbleServerGameState
  debugIsFrozen : Bool
  deriving DecidableEq

/-- Phase of a transport connection (transport_connection.h). -/
inductive NbTransportConnectionPhase where
  | idle
  | initialStateDetermined
  | waitingForReconnect
  deriving DecidableEq

/-- Modelled from the spec: the ordered-datagram collaborator is not
under src/. Only the initial-datagram flag is read or written by the
code under verification. -/
structure OrderedDatagramInLogic where
  hasReceivedInitialDatagram : Bool
  deriving DecidableEq

/-- Modelled from the spec: the ordered-datagram out state; a sequence
counter stands for the framing state, which the code under verification
only initializes, prepares and commits. -/
structure OrderedDatagramOutLogic where
  sequence : Nat
  deriving DecidableEq

/-- Per-transport-slot state (transport_connection.h), with the fields
assigned by server.c and transport_connection.c. The allocator and log
handles of the C struct carry no observable state and are omitted. -/
structure NbdTransportConnection where
  isUsed : Bool
  transportConnectionId : Nat
  assignedParticipantConnection : Option Nat
  orderedDatagramInLogic : OrderedDatagramInLogic
  orderedDatagramOutLogic : OrderedDatagramOutLogic
  nextBlobStreamOutChannel : Nat
  blobStreamOutClientRequestId : Nat
  debugCounter : Nat
  noRangesToSendCounter : Nat
  nextAuthoritativeStepIdToSend : Nat
  phase : NbTransportConnectionPhase
  stepsBehindStats : Nat
  deriving DecidableEq

/-- transportConnectionInit from transport_connection.c: resets the
ordered-datagram state, sets nextBlobStreamOutChannel to 127, marks the
slot used, sets nextAuthoritativeStepIdToSend to 0xFFFFFFFF, phase Idle,
request id 0, and zeroes the counters and the stepsBehind stats. The C
self-copy of the log field and the allocator assignment carry no
observable state. -/
def transportConnectionInit (self : NbdTransportConnection) : NbdTransportConnection :=
  { self with
    orderedDatagramOutLogic := { sequence := 0 }
    orderedDatagramInLogic := { hasReceivedInitialDatagram := false }
    nextBlobStreamOutChannel := 127
    debugCounter := 0
    isUsed := true
    noRangesToSendCounter := 0
    nextAuthoritativeStepIdToSend := 0xFFFFFFFF
    phase := NbTransportConnectionPhase.idle
    blobStreamOutClientRequestId := 0
    stepsBehindStats := 0 }

/-- One participant connection (participant_connection.h), with the
fields observed by server.c: id, isUsed, the owning transport slot, and
the forced-step counter. The step ring and participant references are
not touched by the code under verification. -/
structure NimbleServerParticipantConnection where
  id : Nat
  isUsed : Bool
  transportConnectionId : Nat
  forcedStepInRowCounter : Nat
  deriving DecidableEq, Inhabited

/-- The fixed pool of participant connections. -/
structure NimbleServerParticipantConnections where
  capacityCount : Nat
  pool : List NimbleServerParticipantConnection
  deriving DecidableEq

/-- The server aggregate (server.h): transport slots, the participant
connection pool, the game, and the stats counter. Slots are modelled as
a total map from slot index. -/
structure NimbleServer where
  transportConnections : Nat → NbdTransportConnection
  connections : NimbleServerParticipantConnections
  game : NimbleServerGame
  statsCounter : Nat

/-- The setup record handed to nimbleServerInit (server.h), restricted
to the numeric limits the code under verification checks or stores. -/
structure NimbleServerSetup where
  maxConnectionCount : Nat
  maxParticipantCount : Nat
  maxParticipantCountForEachConnection : Nat
  maxSingleParticipantStepOctetCount : Nat
  maxGameStateOctetCount : Nat
  deriving DecidableEq

/-- Modelled from the spec: NBD_SERVER_MAX_TRANSPORT_CONNECTIONS is
defined in server.h, which is not under src/; the spec fixes the hard
transport-slot limit at 64. -/
def NBD_SERVER_MAX_TRANSPORT_CONNECTIONS : Nat := 64

/-- The local constant maximumSingleStepCountAllowed of nimbleServerInit. -/
def maximumSingleStepCountAllowed : Nat := 24

/-- Pointwise update of the transport-slot map. -/
def updateSlot (f : Nat → NbdTransportConnection) (i : Nat) (v : NbdTransportConnection) :
    Nat → NbdTransportConnection :=
  fun j => if j = i then v else f j

/-- A transport slot as nimbleServerInit leaves it: the source assigns
only assignedParticipantConnection, transportConnectionId and isUsed;
the remaining fields stay unspecified in C until transportConnectionInit
runs and are modelled as zeroed. -/
def initialTransportConnection (i : Nat) : NbdTransportConnection :=
  { isUsed := false
    transportConnectionId := i
    assignedParticipantConnection := none
    orderedDatagramInLogic := { hasReceivedInitialDatagram := false }
    orderedDatagramOutLogic := { sequence := 0 }
    nextBlobStreamOutChannel := 0
    blobStreamOutClientRequestId := 0
    debugCounter := 0
    noRangesToSendCounter := 0
    nextAuthoritativeStepIdToSend := 0
    phase := NbTransportConnectionPhase.idle
    stepsBehindStats := 0 }

/-- Modelled from the spec: nbdParticipantConnectionsInit lives in
participant_connections.c, not under src/. It lays out a fixed pool of
unused participant connections; 0x100 is the reserved freed marker for
ids, and the same sentinel marks a pool entry not yet associated with
any transport slot (a transport slot index is a uint8 and can never
equal 0x100). -/
def nbdParticipantConnectionsInit (capacity : Nat) : NimbleServerParticipantConnections :=
  { capacityCount := capacity
    pool := List.replicate capacity
      { id := 0x100, isUsed := false, transportConnectionId := 0x100, forcedStepInRowCounter := 0 } }

/-- The game as nimbleServerInit leaves it: the source does not touch
self->game at all (it is established later by nimbleServerReInitWithGame);
the unspecified memory is modelled as zeroed. -/
def uninitializedGame : NimbleServerGame :=
  { authoritativeSteps := { expectedReadId := 0, expectedWriteId := 0, stepsCount := 0 }
    latestState := { stepId := 0 }
    debugIsFrozen := false }

/-- The server state nimbleServerInit constructs when all limit checks
pass: the pool is initialized and every transport slot gets its index,
no assigned participant connection, and isUsed false. -/
def nimbleServerInitialState (setup : NimbleServerSetup) : NimbleServer :=
  { transportConnections := fun i => initialTransportConnection i
    connections := nbdParticipantConnectionsInit setup.maxConnectionCount
    game := uninitializedGame
    statsCounter := 0 }

/-- nimbleServerInit from server.c: rejects maxConnectionCount above
NBD_SERVER_MAX_TRANSPORT_CONNECTIONS, then a single-participant step
octet count above 24, then maxParticipantCount above the same hard
transport limit, each with return value -1; otherwise initializes the
pool and the transport slots and returns the initial server state. -/
def nimbleServerInit (setup : NimbleServerSetup) : Except Int NimbleServer :=
  if setup.maxConnectionCount > NBD_SERVER_MAX_TRANSPORT_CONNECTIONS then Except.error (-1)
  else if setup.maxSingleParticipantStepOctetCount > maximumSingleStepCountAllowed then
    Except.error (-1)
  else if setup.maxParticipantCount > NBD_SERVER_MAX_TRANSPORT_CONNECTIONS then Except.error (-1)
  else Except.ok (nimbleServerInitialState setup)

/-- nimbleServerConnectionConnected from server.c: a slot already in use
is rejected with -44 and the server is left unchanged; otherwise the
slot is marked used and initialized by transportConnectionInit and the
call returns 0. -/
def nimbleServerConnectionConnected (s : NimbleServer) (connectionIndex : Nat) :
    Int × NimbleServer :=
  if (s.transportConnections connectionIndex).isUsed then (-44, s)
  else
    (0, { s with
          transportConnections := updateSlot s.transportConnections connectionIndex
            (transportConnectionInit (s.transportConnections connectionIndex)) })

/-- Modelled from the spec: nbdParticipantConnectionsFindConnection
lives in participant_connections.c, not under src/. It yields the pool
index and entry associated with the given transport connectionIndex,
or none for a slot no participant connection was ever created for
(disconnect of an unknown slot yields -2, of an already freed one -4,
so the association must survive freeing; freeing keeps the
transportConnectionId field). -/
def nbdParticipantConnectionsFindConnection
    (pool : List NimbleServerParticipantConnection) (connectionIndex : Nat) :
    Option (Nat × NimbleServerParticipantConnection) :=
  match pool.findIdx? (fun c => c.transportConnectionId == connectionIndex) with
  | none => none
  | some j => some (j, pool.getD j default)

/-- nimbleServerConnectionDisconnected from server.c: -2 when no
participant connection is associated with the index, -4 when the found
one is already freed; otherwise the participant connection id becomes
the freed marker 0x100, it is marked unused, the transport slot drops
its hasReceivedInitialDatagram flag, and the call returns 0. -/
def nimbleServerConnectionDisconnected (s : NimbleServer) (connectionIndex : Nat) :
    Int × NimbleServer :=
  match nbdParticipantConnectionsFindConnection s.connections.pool connectionIndex with
  | none => (-2, s)
  | some (j, foundConnection) =>
    if !foundConnection.isUsed then (-4, s)
    else
      (0, { s with
            connections := { s.connections with
              pool := s.connections.pool.set j
                { foundConnection with id := 0x100, isUsed := false } }
            transportConnections := updateSlot s.transportConnections connectionIndex
              { s.transportConnections connectionIndex with
                orderedDatagramInLogic := { hasReceivedInitialDatagram := false } } })

/-- NBD_REASONABLE_NUMBER_OF_STEPS_TO_CATCHUP_FOR_JOINERS from server.c,
declared there as a size_t constant. -/
def NBD_REASONABLE_NUMBER_OF_STEPS_TO_CATCHUP_FOR_JOINERS : Nat := 80

/-- Wrapping uint32 subtraction, as performed on the two StepId fields
in nimbleServerMustProvideGameState. -/
def uint32Sub (a b : Nat) : Nat := (a + (2 ^ 32 - b % 2 ^ 32)) % 2 ^ 32

/-- Conversion of a uint32 value to the C int it is assigned to
(two-complement wrap for values at or above 2^31, as gcc defines the
implementation-defined conversion). -/
def intOfUInt32 (d : Nat) : Int := if d < 2 ^ 31 then (d : Int) else (d : Int) - 2 ^ 32

/-- Conversion of a C int to the size_t it is compared against (the
usual arithmetic conversion; negative values wrap modulo 2^64). -/
def sizeTOfInt (i : Int) : Nat := (i % 2 ^ 64).toNat

/-- nimbleServerMustProvideGameState from server.c: the uint32
difference expectedWriteId - latestState.stepId is stored in an int and
compared, as size_t, against the catchup constant 80. -/
def nimbleServerMustProvideGameState (g : NimbleServerGame) : Bool :=
  let deltaTickCountSinceLastGameState : Int :=
    intOfUInt32 (uint32Sub g.authoritativeSteps.expectedWriteId g.latestState.stepId)
  decide (sizeTOfInt deltaTickCountSinceLastGameState >
    NBD_REASONABLE_NUMBER_OF_STEPS_TO_CATCHUP_FOR_JOINERS)

/-- nimbleServerReset from server.c: its body is commented out in the
source, so the call performs no mutation at all. -/
def nimbleServerReset (s : NimbleServer) : NimbleServer := s

/-- discardAuthoritativeStepsIfBufferGettingFull from req_step.c: when
the authoritative ring holds more than windowSize / 3 steps, the excess
oldest steps are discarded through nbsStepsDiscardCount; otherwise the
game is untouched. NBS_WINDOW_SIZE is a constant of the nimble-steps
collaborator and is taken as the parameter windowSize. -/
def discardAuthoritativeStepsIfBufferGettingFull (windowSize : Nat) (foundGame : NimbleServerGame) :
    Except Int NimbleServerGame :=
  let authoritativeStepCount := foundGame.authoritativeSteps.stepsCount
  let maxCapacity := windowSize / 3
  if authoritativeStepCount > maxCapacity then
    let authoritativeToDrop := authoritativeStepCount - maxCapacity
    match nbsStepsDiscardCount foundGame.authoritativeSteps authoritativeToDrop with
    | Except.error e => Except.error e
    | Except.ok steps => Except.ok { foundGame with authoritativeSteps := steps }
  else Except.ok foundGame

/-- The tail of readIncomingStepsAndCreateAuthoritativeSteps after the
backpressure trim: ingest the predicted steps of the client (yielding
the updated game and clientWaitingForStepId), then, unless the game is
frozen, compose authoritative steps (yielding the advance count). The
ingest and compose bodies live in incoming_predicted_steps.c and
authoritative_steps.c, which are not under src/, so they are parameters;
the result carries the game, the advance count and
clientWaitingForStepId. -/
def ingestComposePhase
    (ingest : NimbleServerGame → Except Int (NimbleServerGame × Nat))
    (compose : NimbleServerGame → Except Int (NimbleServerGame × Nat))
    (foundGame : NimbleServerGame) : Except Int (NimbleServerGame × Nat × Nat) :=
  match ingest foundGame with
  | Except.error e => Except.error e
  | Except.ok (g2, clientWaitingForStepId) =>
    if g2.debugIsFrozen then Except.ok (g2, 0, clientWaitingForStepId)
    else
      match compose g2 with
      | Except.error e => Except.error e
      | Except.ok (g3, advanceCount) => Except.ok (g3, advanceCount, clientWaitingForStepId)

/-- readIncomingStepsAndCreateAuthoritativeSteps from req_step.c: first
the backpressure trim, then the ingest of the incoming predicted steps,
then the compose phase. -/
def readIncomingStepsAndCreateAuthoritativeSteps (windowSize : Nat)
    (ingest : NimbleServerGame → Except Int (NimbleServerGame × Nat))
    (compose : NimbleServerGame → Except Int (NimbleServerGame × Nat))
    (foundGame : NimbleServerGame) : Except Int (NimbleServerGame × Nat × Nat) :=
  match discardAuthoritativeStepsIfBufferGettingFull windowSize foundGame with
  | Except.error e => Except.error e
  | Except.ok g1 => ingestComposePhase ingest compose g1

/-- Modelled from the spec: the command byte values come from
nimble-serialize (commands.h), which is not under src/; the dispatcher
only compares them for equality, so only their distinctness is used. -/
def NimbleSerializeCmdGameStep : Nat := 1

/-- Modelled from the spec: see NimbleSerializeCmdGameStep. -/
def NimbleSerializeCmdJoinGameRequest : Nat := 2

/-- Modelled from the spec: see NimbleSerializeCmdGameStep. -/
def NimbleSerializeCmdDownloadGameStateRequest : Nat := 3

/-- Modelled from the spec: see NimbleSerializeCmdGameStep. -/
def NimbleSerializeCmdDownloadGameStateStatus : Nat := 4

/-- Outcome of one nimbleServerFeed call, following the control flow of
the dispatcher in server.c: early rejection of the connection index
before any handler runs, the special-cased download-state ack (which
replies through the blob-stream layer on its own), one of the three
framed handlers (carrying the return value and whether the single reply
datagram was sent), or the default branch for an unknown command. -/
inductive FeedOutcome where
  | rejectedIndex : Int → FeedOutcome
  | ackStatus : Int → FeedOutcome
  | handled : Nat → Int → Bool → FeedOutcome
  | unknownCommand : FeedOutcome
  deriving DecidableEq

/-- The value nimbleServerFeed returns for an outcome: the rejection
code, the ack handler result, the handler branch value, or 0 for the
default branch (which returns 0 before preparing any reply). -/
def FeedOutcome.returnValue : FeedOutcome → Int
  | FeedOutcome.rejectedIndex c => c
  | FeedOutcome.ackStatus r => r
  | FeedOutcome.handled _ r _ => r
  | FeedOutcome.unknownCommand => 0

/-- The command handler an outcome was dispatched to, if any. -/
def FeedOutcome.dispatchedTo : FeedOutcome → Option Nat
  | FeedOutcome.rejectedIndex _ => none
  | FeedOutcome.ackStatus _ => some NimbleSerializeCmdDownloadGameStateStatus
  | FeedOutcome.handled cmd _ _ => some cmd
  | FeedOutcome.unknownCommand => none

/-- Whether the call handed a reply datagram to the transport. The ack
branch replies through the blob-stream layer (the source comment notes
it can send multiple reply datagrams); the early rejection and the
unknown-command branch return before any send. -/
def FeedOutcome.sentReply : FeedOutcome → Bool
  | FeedOutcome.rejectedIndex _ => false
  | FeedOutcome.ackStatus _ => true
  | FeedOutcome.handled _ _ sent => sent
  | FeedOutcome.unknownCommand => false

/-- nimbleServerFeed from server.c, as the outcome of its dispatcher
control flow. The first capacity check in the source only logs and has
no effect; the guard that returns -13 is connectionIndex > 64. The
command byte sits behind the two octets of ordered-in framing, hence at
offset 2 of the datagram. The three framed handlers live outside src/
and are abstracted by the handler parameter giving their return value
and the reply stream position; a negative handler result is returned
with no send, a reply of at most 2 octets is suppressed (returning 0),
and otherwise the datagram is sent and the transport send result is
returned. -/
def nimbleServerFeedModel (handler : Nat → Int × Nat) (sendResult : Int)
    (connectionIndex : Nat) (datagram : List Nat) : FeedOutcome :=
  if connectionIndex > 64 then FeedOutcome.rejectedIndex (-13)
  else
    let cmd := datagram.getD 2 0
    if cmd = NimbleSerializeCmdDownloadGameStateStatus then
      FeedOutcome.ackStatus (handler cmd).1
    else if cmd = NimbleSerializeCmdGameStep ∨ cmd = NimbleSerializeCmdJoinGameRequest ∨
        cmd = NimbleSerializeCmdDownloadGameStateRequest then
      let result := (handler cmd).1
      let outStreamPos := (handler cmd).2
      if result < 0 then FeedOutcome.handled cmd result false
      else if outStreamPos ≤ 2 then FeedOutcome.handled cmd 0 false
      else FeedOutcome.handled cmd sendResult true
    else FeedOutcome.unknownCommand

/-- One result of multiTransport.receiveFrom, as seen by the drain loop
of nimbleServerReadFromMultiTransport: a negative transport error, or a
received datagram for a connection id. The end of the script stands for
receiveFrom returning 0 (no more datagrams). -/
inductive RecvEvent where
  | failure : Int → RecvEvent
  | datagram : Nat → List Nat → RecvEvent
  deriving DecidableEq

/-- The drain loop body of nimbleServerReadFromMultiTransport, with the
remaining iteration budget as fuel: receiveFrom yielding 0 terminates
with 0, a negative receive result is returned as is, and a datagram is
fed to the dispatcher, whose negative return values are also returned;
otherwise the loop continues. -/
def readLoop (handler : Nat → Int × Nat) (sendResult : Int) :
    Nat → List RecvEvent → Int
  | 0, _ => 0
  | Nat.succ _, [] => 0
  | Nat.succ _, RecvEvent.failure code :: _ => code
  | Nat.succ n, RecvEvent.datagram connectionId data :: rest =>
    let errorCode := (nimbleServerFeedModel handler sendResult connectionId data).returnValue
    if errorCode < 0 then errorCode else readLoop handler sendResult n rest

/-- nimbleServerReadFromMultiTransport from server.c: drains up to 32
datagrams per call (its state effects on the server are the implicit
connect and the per-datagram feed, modelled by the event machine below;
this definition is its return value). -/
def nimbleServerReadFromMultiTransport (handler : Nat → Int × Nat) (sendResult : Int)
    (script : List RecvEvent) : Int :=
  readLoop handler sendResult 32 script

/-- nimbleServerUpdate from server.c: calls
nimbleServerReadFromMultiTransport, discards its result, bumps the stats
counter, and always returns 0. -/
def nimbleServerUpdate (handler : Nat → Int × Nat) (sendResult : Int)
    (script : List RecvEvent) (statsCounter : Nat) : Int × Nat :=
  let _readResult := nimbleServerReadFromMultiTransport handler sendResult script
  (0, statsCounter + 1)

/-- Modelled from the spec: the join handler (req_join_game.c is not
under src/) allocates participants and a participant connection for the
transport slot on a JoinGameRequest. A slot that already owns an in-use
participant connection keeps it; otherwise the first free pool entry is
taken and associated with the slot; with the pool exhausted the join
fails and the server is unchanged. -/
def nbdReqGameJoinEffect (s : NimbleServer) (connectionIndex : Nat) : NimbleServer :=
  match s.connections.pool.findIdx?
      (fun c => c.isUsed && c.transportConnectionId == connectionIndex) with
  | some _ => s
  | none =>
    match s.connections.pool.findIdx? (fun c => !c.isUsed) with
    | none => s
    | some j =>
      { s with
        connections := { s.connections with
          pool := s.connections.pool.set j
            { id := connectionIndex, isUsed := true,
              transportConnectionId := connectionIndex, forcedStepInRowCounter := 0 } } }

/-- The server-state effect of dispatching one received datagram by
command byte: only the join handler touches the connection bookkeeping;
the step and download handlers modify the game, the streams and the
stats, none of which the connection-lifetime invariant mentions, so they
leave this projection of the state unchanged. -/
def feedStateEffect (s : NimbleServer) (connectionIndex : Nat) (cmd : Nat) : NimbleServer :=
  if cmd = NimbleSerializeCmdJoinGameRequest then nbdReqGameJoinEffect s connectionIndex else s

/-- History bookkeeping for the connection-lifetime invariant: per slot,
whether a connectionConnected call (explicit or implicit) was ever
accepted, and whether a successful disconnect happened after the last
accepted connect. -/
structure ConnectionHistory where
  everAccepted : Nat → Bool
  disconnectedAfterConnect : Nat → Bool

/-- Records an accepted connectionConnected for slot i. -/
def markAccepted (h : ConnectionHistory) (i : Nat) : ConnectionHistory :=
  { everAccepted := fun j => if j = i then true else h.everAccepted j
    disconnectedAfterConnect := fun j => if j = i then false else h.disconnectedAfterConnect j }

/-- Records a successful nimbleServerConnectionDisconnected for slot i. -/
def markDisconnected (h : ConnectionHistory) (i : Nat) : ConnectionHistory :=
  { h with
    disconnectedAfterConnect := fun j => if j = i then true else h.disconnectedAfterConnect j }

/-- The empty history: no slot ever accepted a connect. -/
def initialHistory : ConnectionHistory :=
  { everAccepted := fun _ => false, disconnectedAfterConnect := fun _ => false }

/-- An externally observable event of the server lifecycle: an explicit
connectionConnected, a connectionDisconnected, or an arriving datagram
for a slot carrying a command byte (readFromMultiTransport implicitly
connects the slot before feeding it). -/
inductive ServerEvent where
  | connect : Nat → ServerEvent
  | disconnect : Nat → ServerEvent
  | datagram : Nat → Nat → ServerEvent
  deriving DecidableEq

/-- nimbleServerConnectionConnected together with its history
bookkeeping: the accept is recorded only when the call returns 0. -/
def applyConnect (p : NimbleServer × ConnectionHistory) (i : Nat) :
    NimbleServer × ConnectionHistory :=
  ((nimbleServerConnectionConnected p.1 i).2,
    if (nimbleServerConnectionConnected p.1 i).1 = 0 then markAccepted p.2 i else p.2)

/-- One event of the lifecycle machine: explicit connect, disconnect
(recorded when it returns 0), or a datagram (implicit connect on an
unused slot, as in nimbleServerReadFromMultiTransport, then the dispatch
effect). -/
def stepEvent (p : NimbleServer × ConnectionHistory) : ServerEvent →
    NimbleServer × ConnectionHistory
  | ServerEvent.connect i => applyConnect p i
  | ServerEvent.disconnect i =>
    ((nimbleServerConnectionDisconnected p.1 i).2,
      if (nimbleServerConnectionDisconnected p.1 i).1 = 0 then markDisconnected p.2 i else p.2)
  | ServerEvent.datagram i cmd =>
    let q := if (p.1.transportConnections i).isUsed then p else applyConnect p i
    (feedStateEffect q.1 i cmd, q.2)

/-- The lifecycle machine: nimbleServerInit followed by any sequence of
connects, disconnects and datagram feeds, with the acceptance history
alongside. -/
def runServer (setup : NimbleServerSetup) (es : List ServerEvent) :
    NimbleServer × ConnectionHistory :=
  List.foldl stepEvent (nimbleServerInitialState setup, initialHistory) es

/-- A small valid setup used for concrete witness states. -/
def sampleSetup : NimbleServerSetup :=
  { maxConnectionCount := 2, maxParticipantCount := 2,
    maxParticipantCountForEachConnection := 2,
    maxSingleParticipantStepOctetCount := 4, maxGameStateOctetCount := 1024 }

/-- A freshly initialized server. -/
def sampleServer : NimbleServer := nimbleServerInitialState sampleSetup

/-- The sample server after slot 0 accepted connectionConnected. -/
def sampleServerConnected : NimbleServer := (nimbleServerConnectionConnected sampleServer 0).2

/-- The sample server after slot 0 connected and joined the game. -/
def sampleServerJoined : NimbleServer := nbdReqGameJoinEffect sampleServerConnected 0

/-- The sample server after slot 0 connected, joined and was then
disconnected: its participant connection is freed but stays associated
with slot 0. -/
def sampleServerDisconnected : NimbleServer :=
  (nimbleServerConnectionDisconnected sampleServerJoined 0).2

/-- The connection-lifetime invariant of the lifecycle machine: a
transport slot marked used has, at some point, accepted a
connectionConnected call. -/
def LifecycleInv (p : NimbleServer × ConnectionHistory) : Prop :=
  ∀ i, (p.1.transportConnections i).isUsed = true → p.2.everAccepted i = true

/-- The uint32-to-int-to-size_t conversion chain of
nimbleServerMustProvideGameState compares like the plain uint32 value:
values at or above 2^31 become negative ints and then wrap to huge
size_t values, which still exceed 80. -/
theorem sizeTOfInt_intOfUInt32_gt (d : Nat) (hd : d < 2 ^ 32) :
    sizeTOfInt (intOfUInt32 d) > 80 ↔ d > 80 := by
  unfold sizeTOfInt intOfUInt32
  split
  · omega
  · omega

/-- C10: nimbleServerReset leaves the entire server state unchanged (its
body is commented out in the source). -/
theorem nimbleServerReset_leaves_state_unchanged (s : NimbleServer) :
    nimbleServerReset s = s := rfl

/-- C2: nimbleServerMustProvideGameState returns true exactly when the
wrapping uint32 difference expectedWriteId - latestState.stepId exceeds
80; in particular it is false at a difference of 80 and true at 81. -/
theorem mustProvideGameState_iff_delta_gt_80 (g : NimbleServerGame)
    (hw : g.authoritativeSteps.expectedWriteId < 2 ^ 32)
    (hs : g.latestState.stepId < 2 ^ 32) :
    nimbleServerMustProvideGameState g =
      decide ((g.authoritativeSteps.expectedWriteId + 2 ^ 32 - g.latestState.stepId) % 2 ^ 32
        > 80) := by
  unfold nimbleServerMustProvideGameState uint32Sub
    NBD_REASONABLE_NUMBER_OF_STEPS_TO_CATCHUP_FOR_JOINERS
  rw [Nat.mod_eq_of_lt hs]
  rw [show g.authoritativeSteps.expectedWriteId + (2 ^ 32 - g.latestState.stepId) =
    g.authoritativeSteps.expectedWriteId + 2 ^ 32 - g.latestState.stepId from by omega]
  rw [decide_eq_decide]
  exact sizeTOfInt_intOfUInt32_gt _ (Nat.mod_lt _ (by norm_num))

/-- Witness for C2 at the two boundary differences 80 and 81. -/
theorem mustProvideGameState_iff_delta_gt_80_witness :
    nimbleServerMustProvideGameState
      { authoritativeSteps := { expectedReadId := 0, expectedWriteId := 80, stepsCount := 80 }
        latestState := { stepId := 0 }, debugIsFrozen := false } = false ∧
    nimbleServerMustProvideGameState
      { authoritativeSteps := { expectedReadId := 0, expectedWriteId := 81, stepsCount := 81 }
        latestState := { stepId := 0 }, debugIsFrozen := false } = true := by
  constructor
  · rw [mustProvideGameState_iff_delta_gt_80 _ (by decide) (by decide)]
    decide
  · rw [mustProvideGameState_iff_delta_gt_80 _ (by decide) (by decide)]
    decide

/-- C9: nimbleServerInit rejects a single-participant step octet count
above 24, a connection count above 64, or a participant count above 64,
each with the negative code -1 and before any pool is set up; with all
limits respected it returns 0 together with the initialized state. -/
theorem nimbleServerInit_limit_checks (setup : NimbleServerSetup) :
    ((setup.maxSingleParticipantStepOctetCount > 24 ∨ setup.maxConnectionCount > 64 ∨
        setup.maxParticipantCount > 64) →
      nimbleServerInit setup = Except.error (-1)) ∧
    (setup.maxSingleParticipantStepOctetCount ≤ 24 → setup.maxConnectionCount ≤ 64 →
      setup.maxParticipantCount ≤ 64 →
      nimbleServerInit setup = Except.ok (nimbleServerInitialState setup)) := by
  unfold nimbleServerInit NBD_SERVER_MAX_TRANSPORT_CONNECTIONS maximumSingleStepCountAllowed
  constructor
  · intro h
    split_ifs with h1 h2 h3
    · rfl
    · rfl
    · rfl
    · omega
  · intro ha hb hc
    split_ifs with h1 h2 h3
    · omega
    · omega
    · omega
    · rfl

/-- Witness for C9: a setup over the connection limit fails with -1 and
a valid setup initializes. -/
theorem nimbleServerInit_limit_checks_witness :
    nimbleServerInit
      { maxConnectionCount := 65, maxParticipantCount := 1,
        maxParticipantCountForEachConnection := 1,
        maxSingleParticipantStepOctetCount := 4, maxGameStateOctetCount := 1024 } =
      Except.error (-1) ∧
    nimbleServerInit sampleSetup = Except.ok (nimbleServerInitialState sampleSetup) :=
  ⟨(nimbleServerInit_limit_checks _).1 (Or.inr (Or.inl (by decide))),
    (nimbleServerInit_limit_checks sampleSetup).2 (by decide) (by decide) (by decide)⟩

/-- Amended C5: a negative receiveFrom result is returned by
nimbleServerReadFromMultiTransport, but nimbleServerUpdate discards that
return value and yields 0. -/
theorem receiveError_returned_by_read_not_update (handler : Nat → Int × Nat) (sendResult : Int)
    (rest : List RecvEvent) (statsCounter : Nat) (e : Int) (_he : e < 0) :
    nimbleServerReadFromMultiTransport handler sendResult (RecvEvent.failure e :: rest) = e ∧
    (nimbleServerUpdate handler sendResult (RecvEvent.failure e :: rest) statsCounter).1 = 0 :=
  ⟨rfl, rfl⟩

/-- Witness for the amended C5 at a concrete transport error -3. -/
theorem receiveError_returned_by_read_not_update_witness :
    nimbleServerReadFromMultiTransport (fun _ => (0, 10)) 0 [RecvEvent.failure (-3)] = -3 ∧
    (nimbleServerUpdate (fun _ => (0, 10)) 0 [RecvEvent.failure (-3)] 5).1 = 0 :=
  receiveError_returned_by_read_not_update (fun _ => (0, 10)) 0 [] 5 (-3) (by decide)

/-- Counterexample to C5 as stated: with receiveFrom failing with -7,
the drain loop observes and returns -7, yet nimbleServerUpdate returns
0, not the negative code. -/
theorem update_swallows_receive_error :
    nimbleServerReadFromMultiTransport (fun _ => (0, 10)) 0 [RecvEvent.failure (-7)] = -7 ∧
    (nimbleServerUpdate (fun _ => (0, 10)) 0 [RecvEvent.failure (-7)] 0).1 = 0 ∧
    ((0 : Int) ≠ -7) :=
  ⟨rfl, rfl, by decide⟩

/-- C8: a datagram whose command byte is none of the four known commands
takes the default branch of the dispatcher: nimbleServerFeed returns 0,
no handler runs, and no reply datagram is sent (for a connection index
the dispatcher does not reject early). -/
theorem unknown_command_returns_zero_no_reply (handler : Nat → Int × Nat) (sendResult : Int)
    (connectionIndex : Nat) (datagram : List Nat)
    (hidx : connectionIndex ≤ 64)
    (h1 : datagram.getD 2 0 ≠ NimbleSerializeCmdGameStep)
    (h2 : datagram.getD 2 0 ≠ NimbleSerializeCmdJoinGameRequest)
    (h3 : datagram.getD 2 0 ≠ NimbleSerializeCmdDownloadGameStateRequest)
    (h4 : datagram.getD 2 0 ≠ NimbleSerializeCmdDownloadGameStateStatus) :
    nimbleServerFeedModel handler sendResult connectionIndex datagram =
      FeedOutcome.unknownCommand ∧
    (nimbleServerFeedModel handler sendResult connectionIndex datagram).returnValue = 0 ∧
    (nimbleServerFeedModel handler sendResult connectionIndex datagram).sentReply = false := by
  have hmain : nimbleServerFeedModel handler sendResult connectionIndex datagram =
      FeedOutcome.unknownCommand := by
    simp only [nimbleServerFeedModel]
    rw [if_neg (show ¬ connectionIndex > 64 by omega), if_neg h4,
      if_neg (fun hc => hc.elim h1 (fun hd => hd.elim h2 h3))]
  exact ⟨hmain, by rw [hmain]; rfl, by rw [hmain]; rfl⟩

/-- Witness for C8 at command byte 0xFF on connection 0. -/
theorem unknown_command_returns_zero_no_reply_witness :
    nimbleServerFeedModel (fun _ => (0, 10)) 0 0 [0, 0, 0xFF] = FeedOutcome.unknownCommand ∧
    (nimbleServerFeedModel (fun _ => (0, 10)) 0 0 [0, 0, 0xFF]).returnValue = 0 ∧
    (nimbleServerFeedModel (fun _ => (0, 10)) 0 0 [0, 0, 0xFF]).sentReply = false :=
  unknown_command_returns_zero_no_reply (fun _ => (0, 10)) 0 0 [0, 0, 0xFF]
    (by decide) (by decide) (by decide) (by decide) (by decide)

/-- C4 evaluation at the failing input: a GameStep datagram fed with
connectionIndex 64 (the 65th index) is not rejected with -13; the guard
in the source is connectionIndex > 64, so the call proceeds to dispatch
(and the C code indexes transportConnections[64], past the 64-slot
array). -/
theorem feed_dispatches_connection_index_64 :
    nimbleServerFeedModel (fun _ => (0, 10)) 0 64 [0, 0, NimbleSerializeCmdGameStep] =
      FeedOutcome.handled NimbleSerializeCmdGameStep 0 true ∧
    (nimbleServerFeedModel (fun _ => (0, 10)) 0 64
        [0, 0, NimbleSerializeCmdGameStep]).dispatchedTo = some NimbleSerializeCmdGameStep ∧
    (nimbleServerFeedModel (fun _ => (0, 10)) 0 64
        [0, 0, NimbleSerializeCmdGameStep]).returnValue ≠ -13 := by
  refine ⟨by decide, by decide, by decide⟩

/-- C1: handling a GameStep request trims the authoritative ring before
the predicted steps of the client are ingested: with more than
windowSize / 3 stored steps, exactly the excess oldest steps are
discarded, advancing expectedReadId by that amount and leaving exactly
windowSize / 3 steps; with at most windowSize / 3 steps nothing is
discarded; and the ingest phase always receives the trimmed game. -/
theorem gameStep_backpressure_trim (windowSize : Nat) (g : NimbleServerGame) :
    ∃ gTrimmed,
      discardAuthoritativeStepsIfBufferGettingFull windowSize g = Except.ok gTrimmed ∧
      (g.authoritativeSteps.stepsCount > windowSize / 3 →
        gTrimmed.authoritativeSteps.stepsCount = windowSize / 3 ∧
        gTrimmed.authoritativeSteps.expectedReadId =
          (g.authoritativeSteps.expectedReadId +
            (g.authoritativeSteps.stepsCount - windowSize / 3)) % 2 ^ 32 ∧
        gTrimmed.authoritativeSteps.expectedWriteId =
          g.authoritativeSteps.expectedWriteId) ∧
      (g.authoritativeSteps.stepsCount ≤ windowSize / 3 → gTrimmed = g) ∧
      (∀ ingest compose,
        readIncomingStepsAndCreateAuthoritativeSteps windowSize ingest compose g =
          ingestComposePhase ingest compose gTrimmed) := by
  by_cases h : g.authoritativeSteps.stepsCount > windowSize / 3
  · have hok : discardAuthoritativeStepsIfBufferGettingFull windowSize g =
        Except.ok { g with authoritativeSteps :=
          { expectedReadId := (g.authoritativeSteps.expectedReadId +
              (g.authoritativeSteps.stepsCount - windowSize / 3)) % 2 ^ 32
            expectedWriteId := g.authoritativeSteps.expectedWriteId
            stepsCount := windowSize / 3 } } := by
      simp only [discardAuthoritativeStepsIfBufferGettingFull, nbsStepsDiscardCount]
      rw [if_pos h,
        if_neg (show ¬ g.authoritativeSteps.stepsCount - windowSize / 3 >
          g.authoritativeSteps.stepsCount by omega),
        show g.authoritativeSteps.stepsCount -
          (g.authoritativeSteps.stepsCount - windowSize / 3) = windowSize / 3 from by omega]
    refine ⟨_, hok, fun _ => ⟨rfl, rfl, rfl⟩, fun hle => absurd hle (by omega), ?_⟩
    intro ingest compose
    unfold readIncomingStepsAndCreateAuthoritativeSteps
    rw [hok]
  · have hok : discardAuthoritativeStepsIfBufferGettingFull windowSize g = Except.ok g := by
      simp only [discardAuthoritativeStepsIfBufferGettingFull]
      rw [if_neg h]
    refine ⟨g, hok, fun hgt => absurd hgt h, fun _ => rfl, ?_⟩
    intro ingest compose
    unfold readIncomingStepsAndCreateAuthoritativeSteps
    rw [hok]

/-- Witness for C1: a ring of 40 steps against windowSize 90 is trimmed
to 30 steps with expectedReadId advanced by 10, from 5 to 15. -/
theorem gameStep_backpressure_trim_witness :
    ∃ gTrimmed,
      discardAuthoritativeStepsIfBufferGettingFull 90
        { authoritativeSteps := { expectedReadId := 5, expectedWriteId := 45, stepsCount := 40 }
          latestState := { stepId := 0 }, debugIsFrozen := false } = Except.ok gTrimmed ∧
      gTrimmed.authoritativeSteps.stepsCount = 30 ∧
      gTrimmed.authoritativeSteps.expectedReadId = 15 := by
  obtain ⟨gTrimmed, hok, htrim, -, -⟩ := gameStep_backpressure_trim 90
    { authoritativeSteps := { expectedReadId := 5, expectedWriteId := 45, stepsCount := 40 }
      latestState := { stepId := 0 }, debugIsFrozen := false }
  obtain ⟨hcount, hread, -⟩ := htrim (by decide)
  exact ⟨gTrimmed, hok, hcount.trans (by decide), hread.trans (by decide)⟩

/-- C7: connectionConnected on a slot already in use returns -44 and
leaves the server untouched; on an unused slot it returns 0 and the slot
comes up used, in phase Idle, with nextAuthoritativeStepIdToSend
0xFFFFFFFF and nextBlobStreamOutChannel 127. -/
theorem connectionConnected_cases (s : NimbleServer) (connectionIndex : Nat) :
    ((s.transportConnections connectionIndex).isUsed = true →
      nimbleServerConnectionConnected s connectionIndex = (-44, s)) ∧
    ((s.transportConnections connectionIndex).isUsed = false →
      nimbleServerConnectionConnected s connectionIndex =
        (0, { s with
              transportConnections :=
                updateSlot s.transportConnections connectionIndex
                  (transportConnectionInit (s.transportConnections connectionIndex)) }) ∧
      ((nimbleServerConnectionConnected s connectionIndex).2.transportConnections
          connectionIndex).isUsed = true ∧
      ((nimbleServerConnectionConnected s connectionIndex).2.transportConnections
          connectionIndex).phase = NbTransportConnectionPhase.idle ∧
      ((nimbleServerConnectionConnected s connectionIndex).2.transportConnections
          connectionIndex).nextAuthoritativeStepIdToSend = 0xFFFFFFFF ∧
      ((nimbleServerConnectionConnected s connectionIndex).2.transportConnections
          connectionIndex).nextBlobStreamOutChannel = 127) := by
  constructor
  · intro h
    simp [nimbleServerConnectionConnected, h]
  · intro h
    simp [nimbleServerConnectionConnected, h, updateSlot, transportConnectionInit]

/-- Witness for C7: the sample server with slot 0 connected rejects a
second connect with -44; a fresh connect on the unused slot 0 returns 0
and initializes the slot fields. -/
theorem connectionConnected_cases_witness :
    (nimbleServerConnectionConnected sampleServerConnected 0).1 = -44 ∧
    (nimbleServerConnectionConnected sampleServer 0).1 = 0 ∧
    ((nimbleServerConnectionConnected sampleServer 0).2.transportConnections 0).phase =
      NbTransportConnectionPhase.idle ∧
    ((nimbleServerConnectionConnected sampleServer 0).2.transportConnections
      0).nextAuthoritativeStepIdToSend = 0xFFFFFFFF ∧
    ((nimbleServerConnectionConnected sampleServer 0).2.transportConnections
      0).nextBlobStreamOutChannel = 127 := by
  have hused := (connectionConnected_cases sampleServerConnected 0).1 (by decide)
  have hfree := (connectionConnected_cases sampleServer 0).2 (by decide)
  exact ⟨by rw [hused], by rw [hfree.1], hfree.2.2.1, hfree.2.2.2.1, hfree.2.2.2.2⟩

/-- C6: connectionDisconnected returns -2 when no participant connection
is associated with the index, -4 when the associated one is already
freed, and otherwise frees it (id becomes the reserved marker 0x100,
isUsed false), resets hasReceivedInitialDatagram on the transport slot,
and returns 0. -/
theorem connectionDisconnected_cases (s : NimbleServer) (connectionIndex : Nat) :
    ((∀ c ∈ s.connections.pool, c.transportConnectionId ≠ connectionIndex) →
      nimbleServerConnectionDisconnected s connectionIndex = (-2, s)) ∧
    (∀ j foundConnection,
      nbdParticipantConnectionsFindConnection s.connections.pool connectionIndex =
        some (j, foundConnection) →
      foundConnection.isUsed = false →
      nimbleServerConnectionDisconnected s connectionIndex = (-4, s)) ∧
    (∀ j foundConnection,
      nbdParticipantConnectionsFindConnection s.connections.pool connectionIndex =
        some (j, foundConnection) →
      foundConnection.isUsed = true →
      nimbleServerConnectionDisconnected s connectionIndex =
        (0, { s with
              connections := { s.connections with
                pool := s.connections.pool.set j
                  { foundConnection with id := 0x100, isUsed := false } }
              transportConnections :=
                updateSlot s.transportConnections connectionIndex
                  { s.transportConnections connectionIndex with
                    orderedDatagramInLogic := { hasReceivedInitialDatagram := false } } })) := by
  refine ⟨?_, ?_, ?_⟩
  · intro h
    have hnone : nbdParticipantConnectionsFindConnection s.connections.pool
        connectionIndex = none := by
      unfold nbdParticipantConnectionsFindConnection
      rw [List.findIdx?_eq_none_iff.mpr (fun c hc => by simpa using h c hc)]
    unfold nimbleServerConnectionDisconnected
    rw [hnone]
  · intro j foundConnection hfind hused
    unfold nimbleServerConnectionDisconnected
    rw [hfind]
    simp [hused]
  · intro j foundConnection hfind hused
    unfold nimbleServerConnectionDisconnected
    rw [hfind]
    simp [hused]

/-- Witness for C6: disconnect of a never-joined slot yields -2, of an
already freed participant connection -4, and of a live one frees it,
clears the initial-datagram flag, and returns 0. -/
theorem connectionDisconnected_cases_witness :
    (nimbleServerConnectionDisconnected sampleServer 0).1 = -2 ∧
    (nimbleServerConnectionDisconnected sampleServerDisconnected 0).1 = -4 ∧
    (nimbleServerConnectionDisconnected sampleServerJoined 0).1 = 0 ∧
    ((nimbleServerConnectionDisconnected sampleServerJoined 0).2.connections.pool.getD 0
      default).id = 0x100 ∧
    ((nimbleServerConnectionDisconnected sampleServerJoined 0).2.connections.pool.getD 0
      default).isUsed = false ∧
    ((nimbleServerConnectionDisconnected sampleServerJoined
      0).2.transportConnections 0).orderedDatagramInLogic.hasReceivedInitialDatagram = false := by
  have h2 := (connectionDisconnected_cases sampleServer 0).1 (by decide)
  have h4 := (connectionDisconnected_cases sampleServerDisconnected 0).2.1 0
    { id := 0x100, isUsed := false, transportConnectionId := 0, forcedStepInRowCounter := 0 }
    (by decide) (by decide)
  have h0 := (connectionDisconnected_cases sampleServerJoined 0).2.2 0
    { id := 0, isUsed := true, transportConnectionId := 0, forcedStepInRowCounter := 0 }
    (by decide) (by decide)
  refine ⟨by rw [h2], by rw [h4], by rw [h0], by rw [h0]; rfl, by rw [h0]; rfl,
    by rw [h0]; rfl⟩

/-- Reading the updated slot map at the updated index gives the new
value; elsewhere the old one. -/
theorem updateSlot_apply (f : Nat → NbdTransportConnection) (i : Nat)
    (v : NbdTransportConnection) (j : Nat) :
    updateSlot f i v j = if j = i then v else f j := rfl

/-- connectionDisconnected never changes the isUsed flag of any
transport slot: the success branch only clears the ordered-in flag. -/
theorem disconnected_preserves_isUsed (s : NimbleServer) (i j : Nat) :
    ((nimbleServerConnectionDisconnected s i).2.transportConnections j).isUsed =
      (s.transportConnections j).isUsed := by
  unfold nimbleServerConnectionDisconnected
  cases hfind : nbdParticipantConnectionsFindConnection s.connections.pool i with
  | none => rfl
  | some jc =>
    obtain ⟨k, c⟩ := jc
    cases hc : c.isUsed with
    | false => simp [hc]
    | true =>
      by_cases hj : j = i
      · subst hj
        simp [hc, updateSlot]
      · simp [hc, updateSlot, hj]

/-- Dispatching a datagram never changes the transport-slot map: only
the join handler acts, and it only touches the participant pool. -/
theorem feedStateEffect_preserves_transportConnections (s : NimbleServer) (i cmd : Nat) :
    (feedStateEffect s i cmd).transportConnections = s.transportConnections := by
  unfold feedStateEffect nbdReqGameJoinEffect
  split
  · split
    · rfl
    · split
      · rfl
      · rfl
  · rfl

/-- applyConnect preserves the connection-lifetime invariant: a rejected
connect changes nothing, and an accepted one marks the slot accepted. -/
theorem lifecycleInv_applyConnect (p : NimbleServer × ConnectionHistory) (i : Nat)
    (h : LifecycleInv p) : LifecycleInv (applyConnect p i) := by
  unfold applyConnect nimbleServerConnectionConnected
  by_cases hu : (p.1.transportConnections i).isUsed = true
  · simp only [hu, if_true]
    intro j hj
    simpa using h j (by simpa using hj)
  · simp only [hu, if_false]
    intro j hj
    by_cases hji : j = i
    · subst hji
      simp [markAccepted]
    · have hprev : (p.1.transportConnections j).isUsed = true := by
        simpa [updateSlot, hji] using hj
      simpa [markAccepted, hji] using h j hprev

/-- Every lifecycle event preserves the connection-lifetime invariant:
disconnects and non-join dispatches never touch isUsed or the accepted
marks, and connects are recorded when accepted. -/
theorem lifecycleInv_step (p : NimbleServer × ConnectionHistory) (e : ServerEvent)
    (h : LifecycleInv p) : LifecycleInv (stepEvent p e) := by
  cases e with
  | connect i => exact lifecycleInv_applyConnect p i h
  | disconnect i =>
    intro j hj
    have hj2 : ((nimbleServerConnectionDisconnected p.1 i).2.transportConnections j).isUsed =
        true := hj
    rw [disconnected_preserves_isUsed] at hj2
    have hacc := h j hj2
    show (if (nimbleServerConnectionDisconnected p.1 i).1 = 0 then markDisconnected p.2 i
      else p.2).everAccepted j = true
    by_cases hr : (nimbleServerConnectionDisconnected p.1 i).1 = 0
    · simpa [hr, markDisconnected] using hacc
    · simpa [hr] using hacc
  | datagram i cmd =>
    have hq : LifecycleInv (if (p.1.transportConnections i).isUsed then p
        else applyConnect p i) := by
      by_cases hu : (p.1.transportConnections i).isUsed = true
      · simpa [hu] using h
      · simpa [hu] using lifecycleInv_applyConnect p i h
    intro j hj
    have hj2 : ((feedStateEffect (if (p.1.transportConnections i).isUsed then p
        else applyConnect p i).1 i cmd).transportConnections j).isUsed = true := hj
    rw [feedStateEffect_preserves_transportConnections] at hj2
    exact hq j hj2

/-- The invariant is preserved along any event sequence. -/
theorem lifecycleInv_foldl (es : List ServerEvent) (p : NimbleServer × ConnectionHistory)
    (h : LifecycleInv p) : LifecycleInv (List.foldl stepEvent p es) := by
  induction es generalizing p with
  | nil => exact h
  | cons e es ih => exact ih _ (lifecycleInv_step p e h)

/-- The freshly initialized server satisfies the invariant: every slot
starts unused. -/
theorem lifecycleInv_initial (setup : NimbleServerSetup) :
    LifecycleInv (nimbleServerInitialState setup, initialHistory) := by
  intro i hi
  simp [nimbleServerInitialState, initialTransportConnection] at hi

/-- Amended C3: in every state reachable by init, connects, disconnects
and datagram feeds, a used transport slot accepted a connectionConnected
call (explicitly or implicitly via an arriving datagram) at some point.
A successful disconnect, however, does not clear isUsed: the source only
resets the ordered-in flag, so the clause that no disconnect happened
since does not hold. -/
theorem transport_isUsed_implies_accepted_connect (setup : NimbleServerSetup)
    (es : List ServerEvent) (i : Nat)
    (h : ((runServer setup es).1.transportConnections i).isUsed = true) :
    (runServer setup es).2.everAccepted i = true :=
  lifecycleInv_foldl es _ (lifecycleInv_initial setup) i h

/-- Witness for the amended C3: after an accepted connect on slot 0 the
slot is used and recorded as accepted. -/
theorem transport_isUsed_implies_accepted_connect_witness :
    (runServer sampleSetup [ServerEvent.connect 0]).2.everAccepted 0 = true :=
  transport_isUsed_implies_accepted_connect sampleSetup [ServerEvent.connect 0] 0 (by decide)

/-- Counterexample to C3 as stated: connect slot 0, join, then
disconnect successfully; the slot still reports isUsed = true even
though a successful disconnect happened after the accepted connect, so
the claimed invariant clause fails on this reachable state. -/
theorem isUsed_survives_successful_disconnect :
    ¬ ∀ (setup : NimbleServerSetup) (es : List ServerEvent) (i : Nat),
        ((runServer setup es).1.transportConnections i).isUsed = true →
        ((runServer setup es).2.everAccepted i = true ∧
          (runServer setup es).2.disconnectedAfterConnect i = false) := by
  intro hclaim
  have h := hclaim sampleSetup
    [ServerEvent.connect 0, ServerEvent.datagram 0 NimbleSerializeCmdJoinGameRequest,
      ServerEvent.disconnect 0] 0 (by decide)
  exact absurd h.2 (by decide)
